import Mathlib

/-!
Shallow embedding of the rendering core of the `raytracer-rust` repository.

Numbers: the Rust code computes with `f64`; the embedding uses `ℚ` with exact
arithmetic.  The only genuinely non-rational operation the embedded code paths
use is `f64::sqrt`; it is modelled by `ratSqrt`, a computable function that is
exact on perfect squares (which covers every branch decision and every concrete
evaluation below) and is nonnegative everywhere, like the true square root on
nonnegative input.

Randomness: the Rust code draws from a thread-local RNG
(`random_in_unit_sphere`, `gen_range`, `gen::<f64>()`).  Each embedded function
receives its random draws as explicit arguments; the path tracer receives a
stream of draw packets indexed by a threaded counter.
-/

namespace Raytracer

/-- Model of `f64::sqrt` on `ℚ`: exact whenever numerator and denominator are
perfect squares, and nonnegative everywhere. -/
def ratSqrt (q : ℚ) : ℚ :=
  (Nat.sqrt q.num.toNat : ℚ) / (Nat.sqrt q.den : ℚ)

/-! ## `src/math/vec3.rs` -/

/-- `Vector3` from `src/math/vec3.rs`: three `f64` coordinates. -/
structure Vector3 where
  x : ℚ
  y : ℚ
  z : ℚ
deriving DecidableEq

namespace Vector3

/-- `Vector3::new`. -/
def new (x y z : ℚ) : Vector3 := ⟨x, y, z⟩

/-- Index access `v[i]` (the Rust type is backed by `[f64; 3]`). -/
def nth (v : Vector3) : Fin 3 → ℚ
  | 0 => v.x
  | 1 => v.y
  | 2 => v.z

/-- `Vector3::dot`. -/
def dot (v w : Vector3) : ℚ := v.x * w.x + v.y * w.y + v.z * w.z

/-- `Vector3::sqr_len`. -/
def sqrLen (v : Vector3) : ℚ := v.dot v

/-- `Vector3::len` (uses `f64::sqrt`, modelled by `ratSqrt`). -/
def len (v : Vector3) : ℚ := ratSqrt v.sqrLen

/-- `Vector3::cross`. -/
def cross (v w : Vector3) : Vector3 :=
  ⟨v.y * w.z - v.z * w.y, v.z * w.x - v.x * w.z, v.x * w.y - v.y * w.x⟩

/-- `ops::Add` for `Vector3`. -/
def add (v w : Vector3) : Vector3 := ⟨v.x + w.x, v.y + w.y, v.z + w.z⟩

/-- `ops::Sub` for `Vector3`. -/
def sub (v w : Vector3) : Vector3 := ⟨v.x - w.x, v.y - w.y, v.z - w.z⟩

/-- `ops::Neg` for `Vector3`. -/
def neg (v : Vector3) : Vector3 := ⟨-v.x, -v.y, -v.z⟩

/-- `ops::Mul<f64>` for `Vector3` (vector times scalar). -/
def mulScalar (v : Vector3) (s : ℚ) : Vector3 := ⟨v.x * s, v.y * s, v.z * s⟩

/-- `ops::Div<f64>` for `Vector3`. -/
def divScalar (v : Vector3) (s : ℚ) : Vector3 := ⟨v.x / s, v.y / s, v.z / s⟩

instance : Add Vector3 := ⟨add⟩
instance : Sub Vector3 := ⟨sub⟩
instance : Neg Vector3 := ⟨neg⟩

/-- `Vector3::normalized`: divide by the length unless the length is zero, in
which case the vector is returned unchanged. -/
def normalized (v : Vector3) : Vector3 :=
  if v.len ≠ 0 then ⟨v.x / v.len, v.y / v.len, v.z / v.len⟩ else v

/-- `Vector3::reflect`: `*self - *n * (2.0 * self.dot(n))`. -/
def reflect (v n : Vector3) : Vector3 := v - n.mulScalar (2 * v.dot n)

/-- `Vector3::near_zero`: all coordinates below `1e-8` in absolute value. -/
def nearZero (v : Vector3) : Prop :=
  |v.x| < 1/100000000 ∧ |v.y| < 1/100000000 ∧ |v.z| < 1/100000000

instance (v : Vector3) : Decidable v.nearZero := by
  unfold nearZero; infer_instance

/-- `Vector3::min` (component-wise). -/
def vmin (v w : Vector3) : Vector3 := ⟨min v.x w.x, min v.y w.y, min v.z w.z⟩

/-- `Vector3::max` (component-wise). -/
def vmax (v w : Vector3) : Vector3 := ⟨max v.x w.x, max v.y w.y, max v.z w.z⟩

end Vector3

/-! ## `src/raytracer/image.rs` -/

/-- `Color` from `src/raytracer/image.rs`. -/
structure Color where
  r : ℚ
  g : ℚ
  b : ℚ
deriving DecidableEq

namespace Color

/-- `Color::new`. -/
def new (r g b : ℚ) : Color := ⟨r, g, b⟩

/-- `Color::clamp`: each channel is replaced by `f64::min(channel, 1.0)`.
No lower bound is applied. -/
def clamp (c : Color) : Color := ⟨min c.r 1, min c.g 1, min c.b 1⟩

/-- `AddAssign` / the `+` used in the parallel color reductions. -/
def add (c d : Color) : Color := ⟨c.r + d.r, c.g + d.g, c.b + d.b⟩

/-- `Mul<Color>` (component-wise product). -/
def mul (c d : Color) : Color := ⟨c.r * d.r, c.g * d.g, c.b * d.b⟩

/-- `Mul<f64>` (scale every channel). -/
def mulScalar (c : Color) (s : ℚ) : Color := ⟨c.r * s, c.g * s, c.b * s⟩

/-- The `/=`-by-`f64` used in `compute_image` and the light reductions. -/
def divScalar (c : Color) (s : ℚ) : Color := ⟨c.r / s, c.g / s, c.b / s⟩

instance : Add Color := ⟨add⟩
instance : Mul Color := ⟨mul⟩

end Color

/-! ## `Ray` from `src/raytracer/raytrace.rs` -/

/-- A ray: origin plus direction.  `Ray::new` normalizes the direction. -/
structure Ray where
  origin : Vector3
  direction : Vector3
deriving DecidableEq

namespace Ray

/-- `Ray::new`: stores the origin and the *normalized* direction. -/
def new (origin direction : Vector3) : Ray := ⟨origin, direction.normalized⟩

/-- `Ray::at_timestep`: `origin + direction * t`. -/
def atTimestep (ray : Ray) (t : ℚ) : Vector3 :=
  ray.origin + ray.direction.mulScalar t

end Ray

/-! ## `src/raytracer/scene/materials.rs` -/

/-- `Material` enum (the variant `Dieletrics` keeps the source's spelling). -/
inductive Material where
  | lambertian (albedo : Color)
  | metal (albedo : Color) (fuzziness : ℚ)
  | dieletrics (tint : Color) (refractionIndex : ℚ)
  | emissive (color : Color)
deriving DecidableEq

/-- `IntersectionInfo` from `src/raytracer/scene/intersections.rs`. -/
structure IntersectionInfo where
  point : Vector3
  normal : Vector3
  material : Material
  t : ℚ
  u : Option ℚ := none
  v : Option ℚ := none
deriving DecidableEq

/-- `IntersectionInfo::new` (leaves `u`/`v` as `None`). -/
def IntersectionInfo.new (point normal : Vector3) (material : Material) (t : ℚ) :
    IntersectionInfo :=
  { point := point, normal := normal, material := material, t := t }

/-- The random draws one invocation of `Material::scatter` may consume:
one `random_in_unit_sphere` vector (Lambertian, Metal) and one uniform
`gen::<f64>()` draw (Dielectric). -/
structure ScatterRand where
  unitSphere : Vector3
  uniformDraw : ℚ
deriving DecidableEq

/-- `LambertianMaterial::scatter`: direction `normal + random_unit_vector()`
with a fallback to the normal when the sum is near zero; always scatters. -/
def LambertianMaterial.scatter (albedo : Color) (inter : IntersectionInfo)
    (rnd : Vector3) : Option (Option Ray × Color) :=
  let scatterDirection := inter.normal + rnd.normalized
  let scatterDirection :=
    if scatterDirection.nearZero then inter.normal else scatterDirection
  some (some (Ray.new inter.point scatterDirection), albedo)

/-- `EmissiveMaterial::scatter`: no continuation ray, emits its own color. -/
def EmissiveMaterial.scatter (color : Color) : Option (Option Ray × Color) :=
  some (none, color)

/-- `DielectricsMaterial::refract` (Snell's law in vector form). -/
def DielectricsMaterial.refract (direction normal : Vector3) (rr : ℚ) : Vector3 :=
  let cosTheta := min (normal.dot (-direction)) 1
  let rOutPerp := (direction + normal.mulScalar cosTheta).mulScalar rr
  let rOutParallel := normal.mulScalar (-(ratSqrt |1 - rOutPerp.sqrLen|))
  rOutPerp + rOutParallel

/-- `DielectricsMaterial::reflectance` (Schlick approximation). -/
def DielectricsMaterial.reflectance (cosine refIdx : ℚ) : ℚ :=
  let r0 := ((1 - refIdx) / (1 + refIdx)) ^ 2
  r0 + (1 - r0) * (1 - cosine) ^ 5

/-- `DielectricsMaterial::scatter`: refract or (on total internal reflection or
a reflectance-weighted coin flip) reflect; always scatters with the tint. -/
def DielectricsMaterial.scatter (tint : Color) (refractionIndex : ℚ) (ray : Ray)
    (inter : IntersectionInfo) (rnd : ℚ) : Option (Option Ray × Color) :=
  let frontFace := inter.normal.dot ray.direction ≤ 0
  let rr := if frontFace then 1 / refractionIndex else refractionIndex
  let normal := if frontFace then inter.normal else -inter.normal
  let unitDirection := ray.direction
  let cosTheta := min ((-unitDirection).dot normal) 1
  let sinTheta := ratSqrt (1 - cosTheta * cosTheta)
  let cannotRefract := rr * sinTheta > 1
  let direction :=
    if cannotRefract ∨ DielectricsMaterial.reflectance cosTheta rr > rnd then
      unitDirection.reflect normal
    else
      DielectricsMaterial.refract unitDirection normal rr
  some (some (Ray.new inter.point direction), tint)

/-- `MetalMaterial::scatter`: reflect the normalized incoming direction about
the normal, perturb by `fuzziness * random_in_unit_sphere`, and reject the
scatter when the result does not point away from the surface. -/
def MetalMaterial.scatter (albedo : Color) (fuzziness : ℚ) (ray : Ray)
    (inter : IntersectionInfo) (rnd : Vector3) : Option (Option Ray × Color) :=
  let reflected := ray.direction.normalized.reflect inter.normal
  let scattered := Ray.new inter.point (reflected + rnd.mulScalar fuzziness)
  if scattered.direction.dot inter.normal > 0 then
    some (some scattered, albedo)
  else
    none

/-- `impl Scatter for Material`: dispatch on the variant. -/
def Material.scatter (m : Material) (ray : Ray) (inter : IntersectionInfo)
    (rnd : ScatterRand) : Option (Option Ray × Color) :=
  match m with
  | .lambertian albedo => LambertianMaterial.scatter albedo inter rnd.unitSphere
  | .metal albedo fuzziness =>
      MetalMaterial.scatter albedo fuzziness ray inter rnd.unitSphere
  | .dieletrics tint refractionIndex =>
      DielectricsMaterial.scatter tint refractionIndex ray inter rnd.uniformDraw
  | .emissive color => EmissiveMaterial.scatter color

/-- The `if let Material::Dieletrics(_)` test in `Ray::trace`. -/
def Material.isDieletrics : Material → Bool
  | .dieletrics _ _ => true
  | _ => false

/-! ## Geometry: `src/raytracer/scene/intersections.rs` and `mesh.rs` -/

/-- `f64::MAX`, the sentinel used by `Sphere::intersect`, as an exact rational:
`(2 - 2⁻⁵²) · 2¹⁰²³`. -/
def f64MAX : ℚ := 2 ^ 1024 - 2 ^ 971

/-- `Sphere` (current generation: the material is the `Material` enum, as used
by `scene/intersections.rs` and its tests). -/
structure Sphere where
  center : Vector3
  radius : ℚ
  material : Material
deriving DecidableEq

/-- The discriminant `b² - 4ac` of the sphere intersection quadratic, exactly
as `Sphere::intersect` computes it. -/
def Sphere.discriminant (s : Sphere) (ray : Ray) : ℚ :=
  let dir := ray.direction
  let oc := ray.origin - s.center
  let a := dir.sqrLen
  let b := 2 * dir.dot oc
  let c := oc.sqrLen - s.radius * s.radius
  b * b - 4 * a * c

/-- `Sphere::intersect`: solve the quadratic; proceed whenever the discriminant
is `>= 0.0`; keep the smallest root above `1e-5` using an `f64::MAX` sentinel. -/
def Sphere.intersect (s : Sphere) (ray : Ray) : Option IntersectionInfo :=
  let dir := ray.direction
  let oc := ray.origin - s.center
  let a := dir.sqrLen
  let b := 2 * dir.dot oc
  let d := s.discriminant ray
  if d ≥ 0 then
    let sd := ratSqrt d
    let t1 := (-b - sd) / (2 * a)
    let t2 := (-b + sd) / (2 * a)
    let it1 := if t1 > 1/100000 ∧ t1 < f64MAX then t1 else f64MAX
    let it2 := if t2 > 1/100000 ∧ t2 < it1 then t2 else it1
    if it2 = f64MAX then none
    else
      let point := ray.atTimestep it2
      some (IntersectionInfo.new point ((point - s.center).divScalar s.radius)
        s.material it2)
  else
    none

/-- `Plane`. -/
structure Plane where
  center : Vector3
  normal : Vector3
  material : Material
deriving DecidableEq

/-- `Plane::intersect`: reject near-parallel rays (`|n·d| < 1e-6`) and hits
with `t < 1e-5`. -/
def Plane.intersect (p : Plane) (ray : Ray) : Option IntersectionInfo :=
  let dotNd := p.normal.dot ray.direction
  if |dotNd| < 1/1000000 then none
  else
    let t := (p.center - ray.origin).dot p.normal / dotNd
    if t < 1/100000 then none
    else some (IntersectionInfo.new (ray.atTimestep t) p.normal p.material t)

/-- `calculate_determinant` from `intersections.rs` (three column vectors). -/
def calculateDeterminant (v1 v2 v3 : Vector3) : ℚ :=
  (v1.x * v2.y * v3.z + v2.x * v3.y * v1.z + v3.x * v1.y * v2.z)
    - (v3.x * v2.y * v1.z + v2.x * v1.y * v3.z + v1.x * v3.y * v2.z)

/-- `Triangle` from `src/raytracer/mesh.rs`: index triples into the mesh pools. -/
structure Triangle where
  vertexIdx : ℕ × ℕ × ℕ
  normalIdx : Option (ℕ × ℕ × ℕ) := none
  uvIdx : Option (ℕ × ℕ × ℕ) := none
  materialIdx : ℕ
deriving DecidableEq

/-- `AABB` from `src/raytracer/mesh.rs`. -/
structure AABB where
  min : Vector3
  max : Vector3
deriving DecidableEq

/-- `Mesh` from `src/raytracer/mesh.rs`. -/
structure Mesh where
  triangles : List Triangle
  materials : List Material
  vertexPositions : List Vector3
  normals : List Vector3 := []
  uvs : List (ℚ × ℚ) := []
  aabb : Option AABB := none
deriving DecidableEq

/-- `Mesh::compute_aabb`: fold component-wise min/max over the vertex pool,
starting from the `f64::MAX` / `f64::MIN` sentinels. -/
def Mesh.computeAabb (m : Mesh) : Mesh :=
  let bbMin := m.vertexPositions.foldl Vector3.vmin ⟨f64MAX, f64MAX, f64MAX⟩
  let bbMax := m.vertexPositions.foldl Vector3.vmax ⟨-f64MAX, -f64MAX, -f64MAX⟩
  { m with aabb := some ⟨bbMin, bbMax⟩ }

/-- The three classifications Woo's slab test assigns to the ray origin on one
axis (the `NONE` initial value of the Rust arrays is overwritten on every axis
before use). -/
inductive Quadrant where
  | left
  | right
  | middle
deriving DecidableEq

/-- `AABB::intersect`: Woo's fast ray-box intersection, translated clause by
clause (origin classification, inside shortcut, candidate-plane `t`s with `-1`
fill-in, argmax plane selection, bounds check of the other two coordinates). -/
def AABB.intersect (bb : AABB) (ray : Ray) : Bool :=
  let quadrant : Fin 3 → Quadrant := fun i =>
    if ray.origin.nth i < bb.min.nth i then .left
    else if ray.origin.nth i > bb.max.nth i then .right
    else .middle
  let candidatePlane : Fin 3 → ℚ := fun i =>
    if ray.origin.nth i < bb.min.nth i then bb.min.nth i
    else if ray.origin.nth i > bb.max.nth i then bb.max.nth i
    else -1
  if quadrant 0 = .middle ∧ quadrant 1 = .middle ∧ quadrant 2 = .middle then
    true
  else
    let maxT : Fin 3 → ℚ := fun i =>
      if quadrant i ≠ .middle ∧ ray.direction.nth i ≠ 0 then
        (candidatePlane i - ray.origin.nth i) / ray.direction.nth i
      else -1
    let wp1 : Fin 3 := if maxT 0 < maxT 1 then 1 else 0
    let whichPlane : Fin 3 := if maxT wp1 < maxT 2 then 2 else wp1
    let checkAxis : Fin 3 → Bool := fun i =>
      if whichPlane ≠ i then
        let coord := ray.origin.nth i + maxT whichPlane * ray.direction.nth i
        decide (bb.min.nth i ≤ coord ∧ coord ≤ bb.max.nth i)
      else true
    checkAxis 0 && checkAxis 1 && checkAxis 2

/-- The body of the triangle loop in `Mesh::intersect`: Cramer's rule on
`[d | (b-a) | (c-a)]`, the acceptance test
`a < 0 || b < 0 || a + b > 1 || t < 0`, and the `IntersectionInfo` (with
barycentric UV interpolation) a surviving triangle produces.
Out-of-range pool indices (a panic in Rust, excluded by the scene-validity
precondition) are modelled by a zero default. -/
def Mesh.triangleCandidate (m : Mesh) (ray : Ray) (tri : Triangle) :
    Option IntersectionInfo :=
  let va := m.vertexPositions.getD tri.vertexIdx.1 ⟨0, 0, 0⟩
  let vb := m.vertexPositions.getD tri.vertexIdx.2.1 ⟨0, 0, 0⟩
  let vc := m.vertexPositions.getD tri.vertexIdx.2.2 ⟨0, 0, 0⟩
  let ab := vb - va
  let ac := vc - va
  let res := ray.origin - va
  let detM := calculateDeterminant ray.direction ab ac
  let detMT := calculateDeterminant res ab ac
  let detMA := calculateDeterminant ray.direction res ac
  let detMB := calculateDeterminant ray.direction ab res
  let a := detMA / detM
  let b := detMB / detM
  let t := -(detMT / detM)
  if a < 0 ∨ b < 0 ∨ a + b > 1 ∨ t < 0 then none
  else
    let normal := (ab.cross ac).normalized
    let info := IntersectionInfo.new (ray.atTimestep t) normal
      (m.materials.getD tri.materialIdx (.emissive ⟨0, 0, 0⟩)) t
    match tri.uvIdx with
    | some tuvIdx =>
        let uv1 := m.uvs.getD tuvIdx.2.1 (0, 0)
        let uv2 := m.uvs.getD tuvIdx.2.2 (0, 0)
        let uv3 := m.uvs.getD tuvIdx.1 (0, 0)
        some { info with
          u := some (a * uv1.1 + b * uv2.1 + (1 - a - b) * uv3.1),
          v := some (a * uv1.2 + b * uv2.2 + (1 - a - b) * uv3.2) }
    | none => some info

/-- One iteration of the triangle loop of `Mesh::intersect`: keep the running
`result` unless the triangle yields a hit and
`result.is_none() || result.unwrap().t > t`. -/
def Mesh.intersectStep (m : Mesh) (ray : Ray) (result : Option IntersectionInfo)
    (tri : Triangle) : Option IntersectionInfo :=
  match m.triangleCandidate ray tri with
  | none => result
  | some info =>
      match result with
      | none => some info
      | some r => if r.t > info.t then some info else result

/-- `Mesh::intersect`: AABB pre-filter, then the triangle loop keeping the
first hit of minimal `t`. -/
def Mesh.intersect (m : Mesh) (ray : Ray) : Option IntersectionInfo :=
  let loop := m.triangles.foldl (m.intersectStep ray) none
  match m.aabb with
  | some bb => if !bb.intersect ray then none else loop
  | none => loop

/-! ## Scene aggregate: `src/raytracer/scene/scene.rs` -/

/-- `Object` enum. -/
inductive Object where
  | sphere (s : Sphere)
  | plane (p : Plane)
  | mesh (m : Mesh)
deriving DecidableEq

/-- `impl Intersectable for Object`: dispatch on the variant. -/
def Object.intersect (o : Object) (ray : Ray) : Option IntersectionInfo :=
  match o with
  | .sphere s => s.intersect ray
  | .plane p => p.intersect ray
  | .mesh m => m.intersect ray

/-- `LightInfo` enum: an authored point light or an authored area light. -/
inductive LightInfo where
  | point (position : Vector3)
  | area (corner u v : Vector3) (gridResolution : ℕ) (deterministic : Bool)
deriving DecidableEq

/-- `LightInfo::sample`: a point light yields its position; an area light
yields one point per grid cell, centered when `deterministic` and jittered by
two `gen_range(0.0..1.0)` draws otherwise.  The draws for cell `(i, j)` are
supplied by `rng (i * resolution + j)`. -/
def LightInfo.sample (li : LightInfo) (rng : ℕ → ℚ × ℚ) : List Vector3 :=
  match li with
  | .point position => [position]
  | .area corner u v gridResolution deterministic =>
      let uStep := u.divScalar (gridResolution : ℚ)
      let vStep := v.divScalar (gridResolution : ℚ)
      (List.range gridResolution).flatMap fun i =>
        (List.range gridResolution).map fun j =>
          let draw := rng (i * gridResolution + j)
          if deterministic then
            corner + uStep.mulScalar ((i : ℚ) + 1/2) + vStep.mulScalar ((j : ℚ) + 1/2)
          else
            corner + uStep.mulScalar ((i : ℚ) + draw.1)
              + vStep.mulScalar ((j : ℚ) + draw.2)

/-- `Light`: authored color and `light_info`, plus the `samples` vector filled
in by `precompute` (the copy of this struct read by `Ray::trace` calls the
field `sample_points`). -/
structure Light where
  samples : List Vector3 := []
  color : Color
  lightInfo : LightInfo
deriving DecidableEq

/-- `Light::compute_samples`. -/
def Light.computeSamples (l : Light) (rng : ℕ → ℚ × ℚ) : Light :=
  { l with samples := l.lightInfo.sample rng }

/-- `Scene`: ambient light, authored lights, objects. -/
structure Scene where
  ambientLight : Color
  lights : List Light
  objects : List Object
deriving DecidableEq

/-- `Scene::get_closest_interesection` (source spelling): linear scan keeping
the smallest-`t` hit. -/
def Scene.getClosestInteresection (s : Scene) (ray : Ray) :
    Option IntersectionInfo :=
  s.objects.foldl
    (fun info o =>
      match o.intersect ray with
      | some intersectionInfo =>
          match info with
          | some i => if i.t > intersectionInfo.t then some intersectionInfo else some i
          | none => some intersectionInfo
      | none => info)
    none

/-- `Scene::precompute`: sample every authored light and compute the AABB of
every mesh object.  Nothing else changes; in particular no light is derived
from emissive materials. -/
def Scene.precompute (s : Scene) (rng : ℕ → ℚ × ℚ) : Scene :=
  { s with
    lights := s.lights.map (fun l => l.computeSamples rng),
    objects := s.objects.map (fun o =>
      match o with
      | .mesh m => .mesh m.computeAabb
      | other => other) }

/-- `ImageConfig`. -/
structure ImageConfig where
  width : ℕ
  height : ℕ
  background : Color
deriving DecidableEq

/-- `CameraConfig`. -/
structure CameraConfig where
  eye : Vector3
  lookAt : Vector3
  up : Vector3
  fovy : ℚ
deriving DecidableEq

/-- `SceneConfig`. -/
structure SceneConfig where
  image : ImageConfig
  camera : CameraConfig
  scene : Scene
deriving DecidableEq

/-! ## Path tracer: `Ray::trace` from `src/raytracer/raytrace.rs` -/

/-- The random draws one recursion level of `Ray::trace` may consume: the
draws of its single `scatter` call and the `gen::<f64>()` draw gating direct
light sampling. -/
structure RandPacket where
  scatterRand : ScatterRand
  lightGate : ℚ
deriving DecidableEq

/-- One fuel level of `Ray::trace`, written against the remaining recursion
budget `fuel = max_depth - current_depth` (the `u8` depth counters of the
source, with `current_depth ≤ max_depth`): `fuel = 0` is the
`current_depth == max_depth` cutoff, and the direct-light gate's
`current_depth == max_depth - 1` test is `fuel = 1`.  Random draws come from
the stream `σ` through a threaded counter.  `shadow` performs the
`trace(scene_config, 0, 1)` call on a shadow ray; it is `none` once the
`shadowGas` budget of `traceAux` (which bounds the probabilistically
terminating shadow-ray chain of the source) is exhausted. -/
def traceGo (cfg : SceneConfig) (σ : ℕ → RandPacket)
    (shadow : Option (Ray → ℕ → Color × ℕ)) : ℕ → Ray → ℕ → Color × ℕ
  | 0, _, ctr => (⟨0, 0, 0⟩, ctr)
  | fuel + 1, ray, ctr =>
    match cfg.scene.getClosestInteresection ray with
    | none => (cfg.image.background, ctr)
    | some info =>
      match info.material.scatter ray info (σ ctr).scatterRand with
      | none => (⟨0, 0, 0⟩, ctr + 1)
      | some (none, albedo) => (albedo, ctr + 1)
      | some (some sc, albedo) =>
        let rec1 := traceGo cfg σ shadow fuel sc (ctr + 1)
        let scatteredColor := rec1.1
        let ctr1 := rec1.2
        let prob : ℚ := if info.material.isDieletrics then 1/20 else 1/10
        let lightsLen : ℚ := (cfg.scene.lights.length : ℚ)
        let gated :=
          0 < cfg.scene.lights.length ∧
            (σ ctr1).lightGate > 1 - lightsLen * prob ∧ fuel = 0
        let lightRes : Color × ℕ :=
          match shadow with
          | some f =>
              if gated then
                let folded := cfg.scene.lights.foldl
                  (fun (acc : Color × ℕ) l =>
                    let shadowRay := Ray.new info.point
                      ((l.samples.headD ⟨0, 0, 0⟩) - info.point)
                    let r := f shadowRay acc.2
                    (acc.1 + albedo * r.1, r.2))
                  (⟨0, 0, 0⟩, ctr1 + 1)
                (folded.1.divScalar lightsLen, folded.2)
              else (⟨0, 0, 0⟩, ctr1 + 1)
          | none => (⟨0, 0, 0⟩, ctr1 + 1)
        (lightRes.1 + albedo * scatteredColor, lightRes.2)

/-- `Ray::trace` with the shadow-ray recursion bounded by `shadowGas`: each
nested `trace(scene_config, 0, 1)` call spends one unit. -/
def traceAux (cfg : SceneConfig) (σ : ℕ → RandPacket) :
    ℕ → ℕ → Ray → ℕ → Color × ℕ
  | 0 => traceGo cfg σ none
  | shadowGas + 1 =>
      traceGo cfg σ (some (fun ray ctr => traceAux cfg σ shadowGas 1 ray ctr))

/-- `Ray::trace(scene_config, current_depth, max_depth)` returning the traced
color (for `current_depth ≤ max_depth`, the range the renderer uses). -/
def Ray.trace (ray : Ray) (cfg : SceneConfig) (σ : ℕ → RandPacket)
    (shadowGas : ℕ) (currentDepth maxDepth : ℕ) : Color :=
  (traceAux cfg σ shadowGas (maxDepth - currentDepth) ray 0).1

/-! ## Per-pixel pipeline from `compute_image` (`src/raytracer/raytrace.rs`) -/

/-- The per-pixel tail of `compute_image`: sum the sub-pixel sample colors
(black-identity reduction), divide by the sample count, apply the square-root
gamma adjustment per channel, and clamp. -/
def finalizePixel (samples : List Color) : Color :=
  let count := samples.length
  let pixelColor := samples.foldl Color.add ⟨0, 0, 0⟩
  let pixelColor := pixelColor.divScalar (count : ℚ)
  let pixelColor : Color :=
    ⟨ratSqrt pixelColor.r, ratSqrt pixelColor.g, ratSqrt pixelColor.b⟩
  pixelColor.clamp

/-! ## `src/raytracer/anti_aliasing.rs` -/

/-- `uniform_grid_sampling`: the `resolution × resolution` grid of offsets
`(base_x + i * step, base_y + j * step)` with `step = 1.0 / resolution`,
pushed with `i` as the outer loop. -/
def uniformGridSampling (resolution : ℕ) (baseX baseY : ℚ) : List (ℚ × ℚ) :=
  let step : ℚ := 1 / (resolution : ℚ)
  (List.range resolution).flatMap fun (i : ℕ) =>
    (List.range resolution).map fun (j : ℕ) =>
      (baseX + (i : ℚ) * step, baseY + (j : ℚ) * step)

/-- `SuperSampling` enum. -/
inductive SuperSampling where
  | uniform (resolution : ℕ)
  | jitter (resolution : ℕ)
deriving DecidableEq

/-- Rust `str::split` on a single-character pattern, on the `List Char` view
of a string: `"a:b"` ↦ `["a", "b"]`, `""` ↦ `[""]`, `":"` ↦ `["", ""]`. -/
def splitOnChar (sep : Char) : List Char → List (List Char)
  | [] => [[]]
  | c :: rest =>
      if c = sep then [] :: splitOnChar sep rest
      else
        match splitOnChar sep rest with
        | [] => [[c]]
        | p :: ps => (c :: p) :: ps

/-- Rust `str::parse::<usize>` on the `List Char` view (digits-only model:
nonempty all-digit strings parse to their decimal value). -/
def parseUsize (s : List Char) : Option ℕ :=
  if s ≠ [] ∧ s.all Char.isDigit then
    some (s.foldl (fun acc c => 10 * acc + (c.toNat - 48)) 0)
  else none

/-- The body of `SuperSampling::from_str` after the `split(":")` call: match
on the method name; for both the `"jitter"` and the `"uniform"` method name, a
parsed resolution produces `SuperSampling::Jitter` (the `"uniform"` arm of the
source constructs `Jitter` too). -/
def SuperSampling.fromStrParts : List (List Char) → Except String SuperSampling
  | [] => .error "unknown method"
  | first :: rest =>
      if first = String.toList "jitter" then
        match rest with
        | [] => .error "no arguments supplied, need resolution for jitter"
        | arg :: _ =>
            match parseUsize arg with
            | some res => .ok (SuperSampling.jitter res)
            | none => .error "resolution has to be an integer"
      else if first = String.toList "uniform" then
        match rest with
        | [] => .error "no arguments supplied, need resolution for uniform"
        | arg :: _ =>
            match parseUsize arg with
            | some res => .ok (SuperSampling.jitter res)
            | none => .error "resolution has to be an integer"
      else .error "unknown method"

/-- `SuperSampling::from_str`: split on `':'`, then decode. -/
def SuperSampling.fromStr (s : List Char) : Except String SuperSampling :=
  SuperSampling.fromStrParts (splitOnChar ':' s)

/-! ## Helper lemmas -/

theorem ratSqrt_nonneg (q : ℚ) : 0 ≤ ratSqrt q := by
  unfold ratSqrt
  positivity

theorem ratSqrt_pos {q : ℚ} (h : 0 < q) : 0 < ratSqrt q := by
  unfold ratSqrt
  have hnum : 0 < q.num.toNat := by
    have := Rat.num_pos.mpr h
    omega
  have hden : 0 < q.den := q.pos
  apply div_pos
  · exact_mod_cast Nat.cast_pos.mpr (Nat.sqrt_pos.mpr hnum)
  · exact_mod_cast Nat.cast_pos.mpr (Nat.sqrt_pos.mpr hden)

theorem ratSqrt_natCast_sq (n : ℕ) : ratSqrt ((n : ℚ) * n) = n := by
  have h : ((n : ℚ) * n) = ((n * n : ℕ) : ℚ) := by push_cast; ring
  rw [h]
  unfold ratSqrt
  rw [Rat.num_natCast, Rat.den_natCast, Int.toNat_natCast, Nat.sqrt_eq, Nat.sqrt_one]
  simp

theorem ratSqrt_zero : ratSqrt 0 = 0 := by
  simpa using ratSqrt_natCast_sq 0

theorem ratSqrt_one : ratSqrt 1 = 1 := by
  simpa using ratSqrt_natCast_sq 1

theorem ratSqrt_sixteen : ratSqrt 16 = 4 := by
  have := ratSqrt_natCast_sq 4
  norm_num at this
  exact this

namespace Vector3

@[simp] theorem nth_zero (v : Vector3) : v.nth 0 = v.x := rfl

@[simp] theorem nth_one (v : Vector3) : v.nth 1 = v.y := rfl

@[simp] theorem nth_two (v : Vector3) : v.nth 2 = v.z := rfl

@[simp] theorem sub_def (v w : Vector3) : v - w = ⟨v.x - w.x, v.y - w.y, v.z - w.z⟩ := rfl

@[simp] theorem add_def (v w : Vector3) : v + w = ⟨v.x + w.x, v.y + w.y, v.z + w.z⟩ := rfl

@[simp] theorem neg_def (v : Vector3) : -v = ⟨-v.x, -v.y, -v.z⟩ := rfl

theorem dot_div_scalar (v n : Vector3) (s : ℚ) :
    Vector3.dot ⟨v.x / s, v.y / s, v.z / s⟩ n = v.dot n / s := by
  simp only [Vector3.dot]
  ring

theorem normalized_dot_pos_iff (v n : Vector3) :
    0 < v.normalized.dot n ↔ 0 < v.dot n := by
  unfold normalized
  by_cases hl : v.len ≠ 0
  · rw [if_pos hl]
    have hpos : 0 < v.len := lt_of_le_of_ne (ratSqrt_nonneg _) (Ne.symm hl)
    rw [dot_div_scalar]
    constructor
    · intro h
      by_contra hc
      push_neg at hc
      exact absurd (div_nonpos_iff.mpr (Or.inr ⟨hc, le_of_lt hpos⟩)) (not_le.mpr h)
    · intro h
      exact div_pos h hpos
  · rw [if_neg hl]

end Vector3

/-! ## C9 -/

/-- C9: `reflect(v, n) = v − 2(v·n)n`, componentwise in the spec's
scalar-first form; and for every unit-length normal (`n·n = 1`) and every
direction `d`, `reflect(d,n)·n = −(d·n)`. -/
theorem reflect_formula_and_flips_normal_component :
    (∀ v n : Vector3, v.reflect n =
      Vector3.new (v.x - 2 * v.dot n * n.x) (v.y - 2 * v.dot n * n.y)
        (v.z - 2 * v.dot n * n.z)) ∧
    (∀ d n : Vector3, n.dot n = 1 → (d.reflect n).dot n = -(d.dot n)) := by
  constructor
  · intro v n
    simp only [Vector3.reflect, Vector3.mulScalar, Vector3.sub_def, Vector3.new,
      Vector3.mk.injEq]
    refine ⟨by ring, by ring, by ring⟩
  · intro d n h
    simp only [Vector3.dot] at h ⊢
    simp only [Vector3.reflect, Vector3.mulScalar, Vector3.sub_def, Vector3.dot]
    linear_combination (-(2 * (d.x * n.x + d.y * n.y + d.z * n.z))) * h

/-- Witness for C9 at `d = (1,2,3)`, `n = (0,0,1)`. -/
theorem reflect_formula_and_flips_normal_component_witness :
    Vector3.dot (Vector3.new 0 0 1) (Vector3.new 0 0 1) = 1 ∧
    (Vector3.reflect (Vector3.new 1 2 3) (Vector3.new 0 0 1)).dot
      (Vector3.new 0 0 1) = -(Vector3.dot (Vector3.new 1 2 3) (Vector3.new 0 0 1)) := by
  refine ⟨by norm_num [Vector3.dot, Vector3.new], ?_⟩
  exact reflect_formula_and_flips_normal_component.2 _ _
    (by norm_num [Vector3.dot, Vector3.new])

/-! ## C7 -/

theorem length_flatMap_map_range {α : Type} (l : List ℕ) (n : ℕ) (f : ℕ → ℕ → α) :
    (l.flatMap fun i => (List.range n).map (f i)).length = l.length * n := by
  induction l with
  | nil => simp
  | cons a l ih =>
      simp only [List.flatMap_cons, List.length_append, List.length_map,
        List.length_range, ih, List.length_cons]
      ring

theorem length_range_flatMap_map {α : Type} (n : ℕ) (f : ℕ → ℕ → α) :
    ((List.range n).flatMap fun i => (List.range n).map (f i)).length = n * n := by
  rw [length_flatMap_map_range, List.length_range]

/-- C7: for `n ≥ 1` the uniform-grid sampler emits exactly `n²` samples,
exactly the points `(x + i/n, y + j/n)` with `i, j < n`; with resolution 1 it
emits the single sample `(x, y)` of the pixel, and with resolution 2 on pixel
`(0,0)` it emits `(0,0), (0,0.5), (0.5,0), (0.5,0.5)`. -/
theorem uniform_grid_sampling_spec (n : ℕ) (x y : ℚ) (_h : 1 ≤ n) :
    (uniformGridSampling n x y).length = n * n ∧
    (∀ p : ℚ × ℚ, p ∈ uniformGridSampling n x y ↔
      ∃ i j : ℕ, i < n ∧ j < n ∧ p = (x + (i : ℚ) / n, y + (j : ℚ) / n)) ∧
    uniformGridSampling 1 x y = [(x, y)] ∧
    uniformGridSampling 2 0 0 = [(0, 0), (0, 1/2), (1/2, 0), (1/2, 1/2)] := by
  refine ⟨?_, ?_, ?_, ?_⟩
  · simp only [uniformGridSampling]
    exact length_range_flatMap_map n _
  · intro p
    simp only [uniformGridSampling]
    constructor
    · intro hp
      rcases List.mem_flatMap.mp hp with ⟨i, hi, hp2⟩
      rcases List.mem_map.mp hp2 with ⟨j, hj, rfl⟩
      exact ⟨i, j, List.mem_range.mp hi, List.mem_range.mp hj,
        by rw [mul_one_div, mul_one_div]⟩
    · rintro ⟨i, j, hi, hj, rfl⟩
      refine List.mem_flatMap.mpr ⟨i, List.mem_range.mpr hi,
        List.mem_map.mpr ⟨j, List.mem_range.mpr hj, ?_⟩⟩
      rw [mul_one_div, mul_one_div]
  · simp [uniformGridSampling, List.range_succ]
  · norm_num [uniformGridSampling, List.range_succ]

/-- Witness for C7 at `n = 2`, pixel `(0, 0)`. -/
theorem uniform_grid_sampling_spec_witness :
    1 ≤ 2 ∧ (uniformGridSampling 2 0 0).length = 2 * 2 := by
  exact ⟨by norm_num, (uniform_grid_sampling_spec 2 0 0 (by norm_num)).1⟩

/-! ## C10 -/

theorem splitOnChar_no_sep (sep : Char) (s : List Char) (h : ∀ c ∈ s, c ≠ sep) :
    splitOnChar sep s = [s] := by
  induction s with
  | nil => rfl
  | cons c cs ih =>
      have hc : c ≠ sep := h c (by simp)
      have hcs : ∀ d ∈ cs, d ≠ sep := fun d hd => h d (by simp [hd])
      simp only [splitOnChar, if_neg hc]
      rw [ih hcs]

theorem splitOnChar_append_sep (sep : Char) (pre rest : List Char)
    (h : ∀ c ∈ pre, c ≠ sep) :
    splitOnChar sep (pre ++ sep :: rest) = pre :: splitOnChar sep rest := by
  induction pre with
  | nil => simp [splitOnChar]
  | cons c cs ih =>
      have hc : c ≠ sep := h c (by simp)
      have hcs : ∀ d ∈ cs, d ≠ sep := fun d hd => h d (by simp [hd])
      rw [List.cons_append]
      simp only [splitOnChar, if_neg hc]
      rw [ih hcs]

theorem parseUsize_no_colon {s : List Char} {k : ℕ} (h : parseUsize s = some k) :
    ∀ c ∈ s, c ≠ ':' := by
  intro c hc
  unfold parseUsize at h
  split at h
  · rename_i hcond
    have := hcond.2
    have hd : c.isDigit := by
      have := List.all_eq_true.mp this c hc
      simpa using this
    intro heq
    rw [heq] at hd
    exact absurd hd (by decide)
  · exact absurd h (by simp)

/-- C10: any string `"uniform:<k>"` whose `<k>` parses as an unsigned integer
is decoded by `SuperSampling::from_str` into `Ok(SuperSampling::Jitter(k))`:
the `"uniform"` arm of the source constructs the `Jitter` variant. -/
theorem from_str_uniform_builds_jitter (ks : List Char) (k : ℕ)
    (h : parseUsize ks = some k) :
    SuperSampling.fromStr (String.toList "uniform" ++ ':' :: ks) =
      Except.ok (SuperSampling.jitter k) := by
  have hpre : ∀ c ∈ String.toList "uniform", c ≠ ':' := by decide
  have hsplit : splitOnChar ':' (String.toList "uniform" ++ ':' :: ks) =
      String.toList "uniform" :: [ks] := by
    rw [splitOnChar_append_sep ':' _ _ hpre, splitOnChar_no_sep ':' ks (parseUsize_no_colon h)]
  unfold SuperSampling.fromStr
  rw [hsplit]
  simp only [SuperSampling.fromStrParts, if_neg (show ¬(String.toList "uniform" =
    String.toList "jitter") by decide), if_pos rfl, h]
  simp

/-- Witness for C10 at the input `"uniform:2"`. -/
theorem from_str_uniform_builds_jitter_witness :
    parseUsize (String.toList "2") = some 2 ∧
    SuperSampling.fromStr (String.toList "uniform" ++ ':' :: String.toList "2") =
      Except.ok (SuperSampling.jitter 2) := by
  refine ⟨by decide, from_str_uniform_builds_jitter _ 2 (by decide)⟩

/-! ## C5 -/

/-- C5 (counterexample): `Color::clamp` applies no lower bound — on the input
`(-1, 0, 0)` the stored red channel stays `-1 < 0`, so the clamp step does not
bound channels below by `0`. -/
theorem clamp_no_lower_bound : (Color.clamp (Color.new (-1) 0 0)).r < 0 := by
  simp only [Color.clamp, Color.new]
  rw [min_eq_left (by norm_num)]
  norm_num

/-- C5 (amended): the clamp step bounds each channel above by `1` only
(`f64::min(channel, 1.0)` per channel, no lower bound); the per-pixel value
stored by `compute_image` is nevertheless in `[0,1]` on every channel, because
the gamma step's square root is nonnegative. -/
theorem finalize_pixel_unit_interval_upper_clamp_only :
    (∀ samples : List Color,
      (0 ≤ (finalizePixel samples).r ∧ (finalizePixel samples).r ≤ 1) ∧
      (0 ≤ (finalizePixel samples).g ∧ (finalizePixel samples).g ≤ 1) ∧
      (0 ≤ (finalizePixel samples).b ∧ (finalizePixel samples).b ≤ 1)) ∧
    (∀ c : Color, c.clamp = Color.new (min c.r 1) (min c.g 1) (min c.b 1)) := by
  constructor
  · intro samples
    simp only [finalizePixel, Color.clamp]
    exact ⟨⟨le_min (ratSqrt_nonneg _) zero_le_one, min_le_right _ _⟩,
      ⟨le_min (ratSqrt_nonneg _) zero_le_one, min_le_right _ _⟩,
      ⟨le_min (ratSqrt_nonneg _) zero_le_one, min_le_right _ _⟩⟩
  · intro c
    rfl

/-! ## C3 -/

/-- C3 (counterexample): the tangent ray `(0,0,0) → (1,0,0)` against the
sphere of center `(2,1,0)` and radius `1` has discriminant exactly `0`, yet
`Sphere::intersect` returns a hit (the code keeps every discriminant
`>= 0.0`). -/
theorem sphere_intersect_tangent_hit :
    Sphere.discriminant
        ⟨Vector3.new 2 1 0, 1, .emissive (Color.new 1 0 0)⟩
        ⟨Vector3.new 0 0 0, Vector3.new 1 0 0⟩ = 0 ∧
    (Sphere.intersect
        ⟨Vector3.new 2 1 0, 1, .emissive (Color.new 1 0 0)⟩
        ⟨Vector3.new 0 0 0, Vector3.new 1 0 0⟩).isSome = true := by
  have hd : Sphere.discriminant
      ⟨Vector3.new 2 1 0, 1, .emissive (Color.new 1 0 0)⟩
      ⟨Vector3.new 0 0 0, Vector3.new 1 0 0⟩ = 0 := by
    norm_num [Sphere.discriminant, Vector3.dot, Vector3.sqrLen, Vector3.new]
  refine ⟨hd, ?_⟩
  simp only [Vector3.new] at hd ⊢
  norm_num [Sphere.intersect, hd, ratSqrt_zero, f64MAX, Vector3.dot,
    Vector3.sqrLen]

/-- C3 (amended): `Sphere::intersect` reports no intersection for every sphere
and ray whose discriminant is strictly negative; a zero discriminant is
processed like a positive one (and can yield a tangent hit). -/
theorem sphere_intersect_none_of_neg_discriminant (s : Sphere) (ray : Ray)
    (h : s.discriminant ray < 0) : s.intersect ray = none := by
  simp only [Sphere.intersect]
  rw [if_neg (not_le.mpr h)]

/-- Witness for C3 at the missing-ray test of the repository's shape: ray
`(0,0,0) → (1,0,0)` against the sphere of center `(0,2,0)`, radius `1`. -/
theorem sphere_intersect_none_of_neg_discriminant_witness :
    Sphere.discriminant
        ⟨Vector3.new 0 2 0, 1, .emissive (Color.new 1 0 0)⟩
        ⟨Vector3.new 0 0 0, Vector3.new 1 0 0⟩ < 0 ∧
    Sphere.intersect
        ⟨Vector3.new 0 2 0, 1, .emissive (Color.new 1 0 0)⟩
        ⟨Vector3.new 0 0 0, Vector3.new 1 0 0⟩ = none := by
  have hd : Sphere.discriminant
      ⟨Vector3.new 0 2 0, 1, .emissive (Color.new 1 0 0)⟩
      ⟨Vector3.new 0 0 0, Vector3.new 1 0 0⟩ < 0 := by
    norm_num [Sphere.discriminant, Vector3.dot, Vector3.sqrLen, Vector3.new]
  exact ⟨hd, sphere_intersect_none_of_neg_discriminant _ _ hd⟩

/-! ## C8 -/

theorem quadrant_left_ne_middle : ¬(Quadrant.left = Quadrant.middle) := by decide

theorem quadrant_right_ne_middle : ¬(Quadrant.right = Quadrant.middle) := by decide

/-- C8: the slab test reports a hit for every ray whose origin lies inside the
box on all three axes, and on the spec's concrete examples the ray
`(0,0,0) → (0,1,0)` hits the box `(0,2,0)/(1,2,1)` and misses the box
`(1,0,1)/(2,1,2)`. -/
theorem aabb_intersect_inside_and_examples (bb : AABB) (ray : Ray)
    (h0 : bb.min.x ≤ ray.origin.x ∧ ray.origin.x ≤ bb.max.x)
    (h1 : bb.min.y ≤ ray.origin.y ∧ ray.origin.y ≤ bb.max.y)
    (h2 : bb.min.z ≤ ray.origin.z ∧ ray.origin.z ≤ bb.max.z) :
    bb.intersect ray = true ∧
    AABB.intersect ⟨Vector3.new 0 2 0, Vector3.new 1 2 1⟩
      ⟨Vector3.new 0 0 0, Vector3.new 0 1 0⟩ = true ∧
    AABB.intersect ⟨Vector3.new 1 0 1, Vector3.new 2 1 2⟩
      ⟨Vector3.new 0 0 0, Vector3.new 0 1 0⟩ = false := by
  refine ⟨?_, ?_, ?_⟩
  · simp only [AABB.intersect, Vector3.nth_zero, Vector3.nth_one, Vector3.nth_two]
    rw [if_pos]
    refine ⟨?_, ?_, ?_⟩
    · rw [if_neg (not_lt.mpr h0.1), if_neg (not_lt.mpr h0.2)]
    · rw [if_neg (not_lt.mpr h1.1), if_neg (not_lt.mpr h1.2)]
    · rw [if_neg (not_lt.mpr h2.1), if_neg (not_lt.mpr h2.2)]
  · norm_num [AABB.intersect, Vector3.nth_zero, Vector3.nth_one, Vector3.nth_two,
      Vector3.new, quadrant_left_ne_middle, quadrant_right_ne_middle]
  · norm_num [AABB.intersect, Vector3.nth_zero, Vector3.nth_one, Vector3.nth_two,
      Vector3.new, quadrant_left_ne_middle, quadrant_right_ne_middle]

/-- Witness for C8: a ray starting at the origin inside the unit cube around
it reports an intersection. -/
theorem aabb_intersect_inside_and_examples_witness :
    (((-1 : ℚ) ≤ 0 ∧ (0 : ℚ) ≤ 1) ∧ ((-1 : ℚ) ≤ 0 ∧ (0 : ℚ) ≤ 1) ∧
      ((-1 : ℚ) ≤ 0 ∧ (0 : ℚ) ≤ 1)) ∧
    AABB.intersect ⟨Vector3.new (-1) (-1) (-1), Vector3.new 1 1 1⟩
      ⟨Vector3.new 0 0 0, Vector3.new 1 0 0⟩ = true := by
  refine ⟨⟨⟨by norm_num, by norm_num⟩, ⟨by norm_num, by norm_num⟩,
    ⟨by norm_num, by norm_num⟩⟩, ?_⟩
  exact (aabb_intersect_inside_and_examples
    ⟨Vector3.new (-1) (-1) (-1), Vector3.new 1 1 1⟩
    ⟨Vector3.new 0 0 0, Vector3.new 1 0 0⟩
    ⟨by norm_num [Vector3.new], by norm_num [Vector3.new]⟩
    ⟨by norm_num [Vector3.new], by norm_num [Vector3.new]⟩
    ⟨by norm_num [Vector3.new], by norm_num [Vector3.new]⟩).1

/-! ## C6 -/

/-- C6: `MetalMaterial::scatter` scatters along the reflection of the
(normalized) incoming direction about the surface normal perturbed by
`fuzziness · random_in_unit_sphere`; it returns `None` exactly when the
perturbed direction points into the surface (`dot(scattered, normal) ≤ 0`),
and otherwise `Some((Some(scattered), albedo))`. -/
theorem metal_scatter_reject_iff (albedo : Color) (fuzz : ℚ) (ray : Ray)
    (inter : IntersectionInfo) (rnd : Vector3) :
    (MetalMaterial.scatter albedo fuzz ray inter rnd = none ↔
      (ray.direction.normalized.reflect inter.normal + rnd.mulScalar fuzz).dot
        inter.normal ≤ 0) ∧
    (0 < (ray.direction.normalized.reflect inter.normal +
        rnd.mulScalar fuzz).dot inter.normal →
      MetalMaterial.scatter albedo fuzz ray inter rnd =
        some (some (Ray.new inter.point
          (ray.direction.normalized.reflect inter.normal + rnd.mulScalar fuzz)),
          albedo)) := by
  have key : 0 < (ray.direction.normalized.reflect inter.normal +
      rnd.mulScalar fuzz).normalized.dot inter.normal ↔
      0 < (ray.direction.normalized.reflect inter.normal +
        rnd.mulScalar fuzz).dot inter.normal :=
    Vector3.normalized_dot_pos_iff _ _
  constructor
  · simp only [MetalMaterial.scatter, Ray.new]
    split_ifs with hcond
    · exact iff_of_false (by simp) (not_le.mpr (key.mp hcond))
    · exact iff_of_true rfl (not_lt.mp (fun hlt => hcond (key.mpr hlt)))
  · intro h
    simp only [MetalMaterial.scatter, Ray.new]
    rw [if_pos (key.mpr h)]

/-- Witness for C6: fuzz `0`, normal `(0,0,1)`, incoming direction `(0,0,-1)`:
the perturbed reflection `(0,0,1)` points away from the surface and the
scatter is accepted. -/
theorem metal_scatter_reject_iff_witness :
    0 < ((Ray.mk (Vector3.new 0 0 5)
          (Vector3.new 0 0 (-1))).direction.normalized.reflect
        (Vector3.new 0 0 1) +
        (Vector3.new 0 0 0).mulScalar 0).dot (Vector3.new 0 0 1) ∧
    MetalMaterial.scatter (Color.new 1 0 0) 0
        (Ray.mk (Vector3.new 0 0 5) (Vector3.new 0 0 (-1)))
        (IntersectionInfo.new (Vector3.new 0 0 0) (Vector3.new 0 0 1)
          (.metal (Color.new 1 0 0) 0) 1)
        (Vector3.new 0 0 0) ≠ none := by
  have hpos : 0 < ((Ray.mk (Vector3.new 0 0 5)
      (Vector3.new 0 0 (-1))).direction.normalized.reflect
      (Vector3.new 0 0 1) +
      (Vector3.new 0 0 0).mulScalar 0).dot (Vector3.new 0 0 1) := by
    norm_num [Vector3.normalized, Vector3.len, Vector3.sqrLen, Vector3.dot,
      Vector3.reflect, Vector3.mulScalar, Vector3.new, ratSqrt_one]
  refine ⟨hpos, fun hnone => ?_⟩
  have := (metal_scatter_reject_iff (Color.new 1 0 0) 0
    (Ray.mk (Vector3.new 0 0 5) (Vector3.new 0 0 (-1)))
    (IntersectionInfo.new (Vector3.new 0 0 0) (Vector3.new 0 0 1)
      (.metal (Color.new 1 0 0) 0) 1)
    (Vector3.new 0 0 0)).1.mp hnone
  simp only [IntersectionInfo.new] at this
  exact absurd this (not_le.mpr hpos)

/-! ## C1 -/

/-- C1 (counterexample): after `precompute`, a scene whose only object is an
emissive sphere still has an empty light list (no light is derived from the
emissive material), while a scene with an authored point light and no objects
at all gets that light's sample point — the light list is the authored lights,
not a list derived from emissive objects. -/
theorem precompute_ignores_emissive_objects :
    (Scene.precompute
        ⟨Color.new 0 0 0, [],
          [Object.sphere ⟨Vector3.new 1 2 3, 1, .emissive (Color.new 1 1 1)⟩]⟩
        (fun _ => (0, 0))).lights = [] ∧
    (Scene.precompute
        ⟨Color.new 0 0 0,
          [⟨[], Color.new 1 1 1, .point (Vector3.new 9 9 9)⟩], []⟩
        (fun _ => (0, 0))).lights =
      [⟨[Vector3.new 9 9 9], Color.new 1 1 1, .point (Vector3.new 9 9 9)⟩] := by
  exact ⟨rfl, rfl⟩

/-- C1 (amended): after `Scene::precompute`, the light list consists exactly
of the authored lights, each with its sample points computed from its
`light_info` (one sample point at a point light's position, `n²` sample
points for an `n×n` area light); the light list depends only on the authored
lights — objects and their materials, emissive or not, contribute nothing to
it. -/
theorem precompute_lights_from_authored_lights (s s' : Scene) (rng : ℕ → ℚ × ℚ)
    (h : s.lights = s'.lights) :
    (s.precompute rng).lights = s.lights.map (fun l => l.computeSamples rng) ∧
    (s.precompute rng).lights = (s'.precompute rng).lights ∧
    (s.precompute rng).lights.length = s.lights.length ∧
    (∀ p : Vector3, LightInfo.sample (.point p) rng = [p]) ∧
    (∀ (c u v : Vector3) (n : ℕ) (det : Bool),
      (LightInfo.sample (.area c u v n det) rng).length = n * n) := by
  refine ⟨rfl, ?_, ?_, ?_, ?_⟩
  · simp only [Scene.precompute, h]
  · simp [Scene.precompute]
  · intro p
    rfl
  · intro c u v n det
    simp only [LightInfo.sample]
    exact length_range_flatMap_map n _

/-- Witness for C1: two scenes with the same authored light but different
objects (none vs. an emissive sphere) precompute to the same light list. -/
theorem precompute_lights_from_authored_lights_witness :
    (Scene.mk (Color.new 0 0 0)
        [⟨[], Color.new 1 1 1, .point (Vector3.new 9 9 9)⟩] []).lights =
      (Scene.mk (Color.new 0 0 0)
        [⟨[], Color.new 1 1 1, .point (Vector3.new 9 9 9)⟩]
        [Object.sphere ⟨Vector3.new 1 2 3, 1,
          .emissive (Color.new 1 1 1)⟩]).lights ∧
    (Scene.precompute (Scene.mk (Color.new 0 0 0)
        [⟨[], Color.new 1 1 1, .point (Vector3.new 9 9 9)⟩] [])
        (fun _ => (0, 0))).lights =
      (Scene.precompute (Scene.mk (Color.new 0 0 0)
        [⟨[], Color.new 1 1 1, .point (Vector3.new 9 9 9)⟩]
        [Object.sphere ⟨Vector3.new 1 2 3, 1,
          .emissive (Color.new 1 1 1)⟩])
        (fun _ => (0, 0))).lights := by
  refine ⟨rfl, ?_⟩
  exact (precompute_lights_from_authored_lights _ _ (fun _ => (0, 0)) rfl).2.1

/-! ## C4 -/

/-- C4 (counterexample): with a depth limit of `0`, tracing a ray that hits
nothing returns black, not the scene's background color — the
`current_depth == max_depth` cutoff fires before the miss branch. -/
theorem trace_depth_zero_black_not_background :
    Scene.getClosestInteresection ⟨Color.new 0 0 0, [], []⟩
        ⟨Vector3.new 0 0 0, Vector3.new 1 0 0⟩ = none ∧
    Ray.trace ⟨Vector3.new 0 0 0, Vector3.new 1 0 0⟩
        ⟨⟨1, 1, Color.new 1 0 0⟩,
          ⟨Vector3.new 0 0 0, Vector3.new 0 0 1, Vector3.new 0 1 0, 1⟩,
          ⟨Color.new 0 0 0, [], []⟩⟩
        (fun _ => ⟨⟨Vector3.new 0 0 0, 0⟩, 0⟩) 0 0 0 = Color.new 0 0 0 ∧
    (⟨⟨1, 1, Color.new 1 0 0⟩,
        ⟨Vector3.new 0 0 0, Vector3.new 0 0 1, Vector3.new 0 1 0, 1⟩,
        ⟨Color.new 0 0 0, [], []⟩⟩ : SceneConfig).image.background =
      Color.new 1 0 0 ∧
    Color.new 0 0 0 ≠ Color.new 1 0 0 := by
  refine ⟨rfl, rfl, rfl, ?_⟩
  intro hcontra
  exact absurd (congrArg Color.r hcontra) (by norm_num [Color.new])

/-- C4 (amended): a ray that intersects no object of the scene traces to the
scene's background color for every depth limit `≥ 1`, but to black when the
depth limit is `0` (the `current_depth == max_depth` cutoff precedes the miss
branch). -/
theorem trace_no_hit_background_unless_exhausted (cfg : SceneConfig)
    (σ : ℕ → RandPacket) (gas : ℕ) (ray : Ray)
    (h : cfg.scene.getClosestInteresection ray = none) :
    (∀ depth : ℕ, 0 < depth →
      Ray.trace ray cfg σ gas 0 depth = cfg.image.background) ∧
    Ray.trace ray cfg σ gas 0 0 = Color.new 0 0 0 := by
  have hgo : ∀ (shadow : Option (Ray → ℕ → Color × ℕ)) (fuel ctr : ℕ),
      traceGo cfg σ shadow (fuel + 1) ray ctr = (cfg.image.background, ctr) := by
    intro shadow fuel ctr
    simp only [traceGo, h]
  constructor
  · intro depth hd
    obtain ⟨fuel, rfl⟩ : ∃ f, depth = f + 1 := ⟨depth - 1, by omega⟩
    unfold Ray.trace
    simp only [Nat.sub_zero]
    cases gas with
    | zero => simpa [traceAux] using congrArg Prod.fst (hgo none fuel 0)
    | succ g => simpa [traceAux] using congrArg Prod.fst (hgo _ fuel 0)
  · unfold Ray.trace
    cases gas <;> rfl

/-- Witness for C4: the empty scene misses every ray; at depth limit `5` the
trace returns the red background. -/
theorem trace_no_hit_background_unless_exhausted_witness :
    Scene.getClosestInteresection ⟨Color.new 0 0 0, [], []⟩
        ⟨Vector3.new 0 0 0, Vector3.new 0 1 0⟩ = none ∧
    Ray.trace ⟨Vector3.new 0 0 0, Vector3.new 0 1 0⟩
        ⟨⟨1, 1, Color.new 1 0 0⟩,
          ⟨Vector3.new 0 0 0, Vector3.new 0 0 1, Vector3.new 0 1 0, 1⟩,
          ⟨Color.new 0 0 0, [], []⟩⟩
        (fun _ => ⟨⟨Vector3.new 0 0 0, 0⟩, 0⟩) 3 0 5 = Color.new 1 0 0 := by
  refine ⟨rfl, ?_⟩
  exact (trace_no_hit_background_unless_exhausted
    ⟨⟨1, 1, Color.new 1 0 0⟩,
      ⟨Vector3.new 0 0 0, Vector3.new 0 0 1, Vector3.new 0 1 0, 1⟩,
      ⟨Color.new 0 0 0, [], []⟩⟩
    (fun _ => ⟨⟨Vector3.new 0 0 0, 0⟩, 0⟩) 3
    ⟨Vector3.new 0 0 0, Vector3.new 0 1 0⟩ (by rfl)).1 5 (by norm_num)

/-! ## C2 -/

theorem intersectStep_cand_none (m : Mesh) (ray : Ray)
    (result : Option IntersectionInfo) (tri : Triangle)
    (hc : m.triangleCandidate ray tri = none) :
    m.intersectStep ray result tri = result := by
  unfold Mesh.intersectStep
  rw [hc]

theorem intersectStep_cand_some_none (m : Mesh) (ray : Ray) (tri : Triangle)
    (c : IntersectionInfo) (hc : m.triangleCandidate ray tri = some c) :
    m.intersectStep ray none tri = some c := by
  unfold Mesh.intersectStep
  rw [hc]

theorem intersectStep_cand_some_some (m : Mesh) (ray : Ray) (tri : Triangle)
    (c r : IntersectionInfo) (hc : m.triangleCandidate ray tri = some c) :
    m.intersectStep ray (some r) tri =
      if r.t > c.t then some c else some r := by
  unfold Mesh.intersectStep
  rw [hc]

set_option maxHeartbeats 2000000 in
theorem triangleCandidate_t_nonneg {m : Mesh} {ray : Ray} {tri : Triangle}
    {j : IntersectionInfo} (h : m.triangleCandidate ray tri = some j) :
    0 ≤ j.t := by
  simp only [Mesh.triangleCandidate] at h
  split at h
  · exact absurd h (by simp)
  · rename_i hcond
    push_neg at hcond
    split at h <;>
    · obtain rfl := Option.some.inj h
      exact hcond.2.2.2

theorem foldl_intersectStep_spec (m : Mesh) (ray : Ray) (l : List Triangle) :
    ∀ (acc : Option IntersectionInfo) (info : IntersectionInfo),
      l.foldl (m.intersectStep ray) acc = some info →
      (acc = some info ∨ ∃ tri ∈ l, m.triangleCandidate ray tri = some info) ∧
      (∀ tri ∈ l, ∀ j, m.triangleCandidate ray tri = some j → info.t ≤ j.t) ∧
      (∀ i0, acc = some i0 → info.t ≤ i0.t) := by
  induction l with
  | nil =>
      intro acc info h
      simp only [List.foldl_nil] at h
      refine ⟨Or.inl h, by simp, ?_⟩
      intro i0 h0
      rw [h] at h0
      obtain rfl := Option.some.inj h0
      exact le_refl _
  | cons tri l ih =>
      intro acc info h
      rw [List.foldl_cons] at h
      have hstep := ih (m.intersectStep ray acc tri) info h
      rcases hc : m.triangleCandidate ray tri with _ | c
      · have hs : m.intersectStep ray acc tri = acc :=
          intersectStep_cand_none m ray acc tri hc
        rw [hs] at hstep
        refine ⟨?_, ?_, hstep.2.2⟩
        · rcases hstep.1 with h1 | ⟨tri', ht', hc'⟩
          · exact Or.inl h1
          · exact Or.inr ⟨tri', List.mem_cons_of_mem _ ht', hc'⟩
        · intro tri' ht' j hj
          rcases List.mem_cons.mp ht' with rfl | ht''
          · rw [hj] at hc
            cases hc
          · exact hstep.2.1 tri' ht'' j hj
      · cases acc with
        | none =>
            have hs : m.intersectStep ray none tri = some c :=
              intersectStep_cand_some_none m ray tri c hc
            rw [hs] at hstep
            have hic : info.t ≤ c.t := hstep.2.2 c rfl
            refine ⟨?_, ?_, ?_⟩
            · rcases hstep.1 with h1 | ⟨tri', ht', hc'⟩
              · obtain rfl := Option.some.inj h1
                exact Or.inr ⟨tri, List.mem_cons_self tri l, hc⟩
              · exact Or.inr ⟨tri', List.mem_cons_of_mem _ ht', hc'⟩
            · intro tri' ht' j hj
              rcases List.mem_cons.mp ht' with rfl | ht''
              · rw [hc] at hj
                obtain rfl := Option.some.inj hj
                exact hic
              · exact hstep.2.1 tri' ht'' j hj
            · intro i0 h0
              exact absurd h0 (by simp)
        | some r =>
            by_cases hrt : r.t > c.t
            · have hs : m.intersectStep ray (some r) tri = some c := by
                rw [intersectStep_cand_some_some m ray tri c r hc, if_pos hrt]
              rw [hs] at hstep
              have hic : info.t ≤ c.t := hstep.2.2 c rfl
              refine ⟨?_, ?_, ?_⟩
              · rcases hstep.1 with h1 | ⟨tri', ht', hc'⟩
                · obtain rfl := Option.some.inj h1
                  exact Or.inr ⟨tri, List.mem_cons_self tri l, hc⟩
                · exact Or.inr ⟨tri', List.mem_cons_of_mem _ ht', hc'⟩
              · intro tri' ht' j hj
                rcases List.mem_cons.mp ht' with rfl | ht''
                · rw [hc] at hj
                  obtain rfl := Option.some.inj hj
                  exact hic
                · exact hstep.2.1 tri' ht'' j hj
              · intro i0 h0
                obtain rfl := Option.some.inj h0
                exact le_trans hic (le_of_lt hrt)
            · have hs : m.intersectStep ray (some r) tri = some r := by
                rw [intersectStep_cand_some_some m ray tri c r hc, if_neg hrt]
              rw [hs] at hstep
              have hir : info.t ≤ r.t := hstep.2.2 r rfl
              refine ⟨?_, ?_, ?_⟩
              · rcases hstep.1 with h1 | ⟨tri', ht', hc'⟩
                · exact Or.inl h1
                · exact Or.inr ⟨tri', List.mem_cons_of_mem _ ht', hc'⟩
              · intro tri' ht' j hj
                rcases List.mem_cons.mp ht' with rfl | ht''
                · rw [hc] at hj
                  obtain rfl := Option.some.inj hj
                  exact le_trans hir (not_lt.mp hrt)
                · exact hstep.2.1 tri' ht'' j hj
              · intro i0 h0
                obtain rfl := Option.some.inj h0
                exact hir

/-- C2 (amended): every hit `Mesh::intersect` returns satisfies the code's
acceptance condition — in particular `t ≥ 0`, the actual threshold of the
triangle loop (there is no `1e-5` epsilon in the mesh path) — it is the
candidate of one of the mesh's triangles, and its `t` is minimal among all
accepted triangle candidates; conversely every accepted candidate has
`t ≥ 0`. -/
theorem mesh_intersect_min_valid (m : Mesh) (ray : Ray) :
    (∀ info, m.intersect ray = some info →
      0 ≤ info.t ∧
      (∃ tri ∈ m.triangles, m.triangleCandidate ray tri = some info) ∧
      (∀ tri ∈ m.triangles, ∀ j, m.triangleCandidate ray tri = some j →
        info.t ≤ j.t)) ∧
    (∀ tri ∈ m.triangles, ∀ j, m.triangleCandidate ray tri = some j →
      0 ≤ j.t) := by
  constructor
  · intro info h
    have hloop : m.triangles.foldl (m.intersectStep ray) none = some info := by
      unfold Mesh.intersect at h
      rcases haabb : m.aabb with _ | bb
      · rw [haabb] at h
        exact h
      · rw [haabb] at h
        by_cases hbb : bb.intersect ray
        · simpa [hbb] using h
        · simp [hbb] at h
    obtain ⟨horigin, hmin, _⟩ :=
      foldl_intersectStep_spec m ray m.triangles none info hloop
    rcases horigin with h1 | hex
    · exact absurd h1 (by simp)
    · obtain ⟨tri, htri, hcand⟩ := hex
      exact ⟨triangleCandidate_t_nonneg hcand, ⟨tri, htri, hcand⟩, hmin⟩
  · intro tri _ j hj
    exact triangleCandidate_t_nonneg hj

/-- C2 (counterexample): a ray whose origin lies on the triangle is accepted
with `t = 0 < 1e-5` — `Mesh::intersect` returns a hit below the claimed
epsilon, because the triangle loop tests `t < 0.0`, not `t < 1e-5`. -/
theorem mesh_intersect_accepts_t_below_epsilon :
    (Mesh.intersect
        ⟨[⟨(0, 1, 2), none, none, 0⟩], [.emissive (Color.new 1 0 0)],
          [Vector3.new 5 (-1) (-1), Vector3.new 5 1 0, Vector3.new 5 (-1) 1],
          [], [], none⟩
        ⟨Vector3.new 5 0 0, Vector3.new 1 0 0⟩).map IntersectionInfo.t =
      some 0 ∧
    (0 : ℚ) < 1/100000 := by
  have hcand : Mesh.triangleCandidate
      ⟨[⟨(0, 1, 2), none, none, 0⟩], [.emissive (Color.new 1 0 0)],
        [Vector3.new 5 (-1) (-1), Vector3.new 5 1 0, Vector3.new 5 (-1) 1],
        [], [], none⟩
      ⟨Vector3.new 5 0 0, Vector3.new 1 0 0⟩ ⟨(0, 1, 2), none, none, 0⟩ =
      some ⟨Vector3.new 5 0 0, Vector3.new 1 0 0,
        .emissive (Color.new 1 0 0), 0, none, none⟩ := by
    norm_num [Mesh.triangleCandidate, calculateDeterminant, Vector3.new,
      Vector3.sub_def, List.getD, IntersectionInfo.new, Ray.atTimestep,
      Vector3.cross, Vector3.normalized, Vector3.len, Vector3.sqrLen,
      Vector3.dot, Vector3.mulScalar, ratSqrt_sixteen]
  constructor
  · rw [show Mesh.intersect
        ⟨[⟨(0, 1, 2), none, none, 0⟩], [.emissive (Color.new 1 0 0)],
          [Vector3.new 5 (-1) (-1), Vector3.new 5 1 0, Vector3.new 5 (-1) 1],
          [], [], none⟩
        ⟨Vector3.new 5 0 0, Vector3.new 1 0 0⟩ =
      List.foldl (Mesh.intersectStep
          ⟨[⟨(0, 1, 2), none, none, 0⟩], [.emissive (Color.new 1 0 0)],
            [Vector3.new 5 (-1) (-1), Vector3.new 5 1 0, Vector3.new 5 (-1) 1],
            [], [], none⟩
          ⟨Vector3.new 5 0 0, Vector3.new 1 0 0⟩) none
        [⟨(0, 1, 2), none, none, 0⟩] from rfl]
    rw [List.foldl_cons, intersectStep_cand_some_none _ _ _ _ hcand,
      List.foldl_nil]
    rfl
  · norm_num

/-- Witness for C2 at the repository's own mesh test: the triangle
`(5,-1,-1), (5,1,0), (5,-1,1)` hit by the ray `(0,0,0) → (1,0,0)` at
`t = 5`. -/
theorem mesh_intersect_min_valid_witness :
    Mesh.intersect
        ⟨[⟨(0, 1, 2), none, none, 0⟩], [.emissive (Color.new 1 0 0)],
          [Vector3.new 5 (-1) (-1), Vector3.new 5 1 0, Vector3.new 5 (-1) 1],
          [], [], none⟩
        ⟨Vector3.new 0 0 0, Vector3.new 1 0 0⟩ =
      some ⟨Vector3.new 5 0 0, Vector3.new 1 0 0,
        .emissive (Color.new 1 0 0), 5, none, none⟩ ∧
    (0 : ℚ) ≤ (5 : ℚ) := by
  have h : Mesh.intersect
      ⟨[⟨(0, 1, 2), none, none, 0⟩], [.emissive (Color.new 1 0 0)],
        [Vector3.new 5 (-1) (-1), Vector3.new 5 1 0, Vector3.new 5 (-1) 1],
        [], [], none⟩
      ⟨Vector3.new 0 0 0, Vector3.new 1 0 0⟩ =
      some ⟨Vector3.new 5 0 0, Vector3.new 1 0 0,
        .emissive (Color.new 1 0 0), 5, none, none⟩ := by
    have hcand : Mesh.triangleCandidate
        ⟨[⟨(0, 1, 2), none, none, 0⟩], [.emissive (Color.new 1 0 0)],
          [Vector3.new 5 (-1) (-1), Vector3.new 5 1 0, Vector3.new 5 (-1) 1],
          [], [], none⟩
        ⟨Vector3.new 0 0 0, Vector3.new 1 0 0⟩ ⟨(0, 1, 2), none, none, 0⟩ =
        some ⟨Vector3.new 5 0 0, Vector3.new 1 0 0,
          .emissive (Color.new 1 0 0), 5, none, none⟩ := by
      norm_num [Mesh.triangleCandidate, calculateDeterminant, Vector3.new,
        Vector3.sub_def, List.getD, IntersectionInfo.new, Ray.atTimestep,
        Vector3.cross, Vector3.normalized, Vector3.len, Vector3.sqrLen,
        Vector3.dot, Vector3.mulScalar, ratSqrt_sixteen]
    rw [show Mesh.intersect
          ⟨[⟨(0, 1, 2), none, none, 0⟩], [.emissive (Color.new 1 0 0)],
            [Vector3.new 5 (-1) (-1), Vector3.new 5 1 0, Vector3.new 5 (-1) 1],
            [], [], none⟩
          ⟨Vector3.new 0 0 0, Vector3.new 1 0 0⟩ =
        List.foldl (Mesh.intersectStep
            ⟨[⟨(0, 1, 2), none, none, 0⟩], [.emissive (Color.new 1 0 0)],
              [Vector3.new 5 (-1) (-1), Vector3.new 5 1 0, Vector3.new 5 (-1) 1],
              [], [], none⟩
            ⟨Vector3.new 0 0 0, Vector3.new 1 0 0⟩) none
          [⟨(0, 1, 2), none, none, 0⟩] from rfl]
    rw [List.foldl_cons, intersectStep_cand_some_none _ _ _ _ hcand,
      List.foldl_nil]
  refine ⟨h, ?_⟩
  exact ((mesh_intersect_min_valid _ _).1 _ h).1

end Raytracer
